import Mathlib

/-!
Verification development for the react-ai-chat-interface repository.

Part 1 embeds the deterministic reply engine (`src/utils/agent.ts`):
the rolling string hash, the tone / length / model lookup tables with
their fallbacks, the six reply-style template generators, and
`generateAgentReply` itself.  JavaScript's ambient nondeterminism
(`Date.now`, `Math.random`, used only for the message id and timestamp)
is threaded explicitly through a `GenEnv` value, so that the dependence
of each output field on that nondeterminism is visible in the types.

Part 2 embeds the persistence layer (`src/hooks/useLocalStorage.ts`):
a JSON value model, the ISO-date revival reviver, the `useState`
initializer (load path), the persisting setter modelled as explicit
state passing, and the schema-migration helpers.
-/

/-! ## UTF-16 code units

JavaScript's `String.prototype.charCodeAt` iterates UTF-16 code units;
characters outside the basic multilingual plane yield surrogate pairs. -/

def utf16CodeUnitsOfChar (c : Char) : List Nat :=
  let n := c.toNat
  if n < 0x10000 then [n]
  else [0xD800 + (n - 0x10000) / 0x400, 0xDC00 + (n - 0x10000) % 0x400]

def utf16CodeUnits (s : String) : List Nat :=
  s.data.flatMap utf16CodeUnitsOfChar

/-- JavaScript 32-bit signed integer truncation (the effect of `x & x`
and of `<<` on a JavaScript number). -/
def toInt32 (n : Int) : Int := (n + 2 ^ 31) % 2 ^ 32 - 2 ^ 31

/-- One iteration of the loop body of `hashString` in `agent.ts`:
`hash = ((hash << 5) - hash) + char; hash = hash & hash`.
`hash << 5` truncates `hash * 32` to int32; the subtraction and the
addition of the code unit are exact in IEEE doubles at these magnitudes;
`hash & hash` truncates the result to int32. -/
def hashStep (hash : Int) (c : Nat) : Int :=
  toInt32 (toInt32 (hash * 32) - hash + c)

/-- `hashString` from `agent.ts`: fold `hashStep` over the UTF-16 code
units starting from 0, then `Math.abs`. -/
def hashString (s : String) : Nat :=
  ((utf16CodeUnits s).foldl hashStep 0).natAbs

/-! ## Reply styles and option tables -/

inductive ReplyStyle where
  | summary
  | bullets
  | steps
  | short_quip
  | definition_example
  | qa
deriving DecidableEq

/-- `REPLY_STYLES` from `agent.ts`. -/
def REPLY_STYLES : List ReplyStyle :=
  [.summary, .bullets, .steps, .short_quip, .definition_example, .qa]

structure ToneTemplate where
  greeting : String
  connector : String
  enthusiasm : String
  closing : String
deriving DecidableEq

structure ModelCharacteristics where
  complexity : String
  examples : Nat
deriving DecidableEq

/-- The `friendly` entry of `TONE_TEMPLATES`. -/
def TONE_TEMPLATES_friendly : ToneTemplate :=
  { greeting := "Hey there!"
    connector := "So"
    enthusiasm := "awesome"
    closing := "Hope that helps! 😊" }

/-- The own properties of the `TONE_TEMPLATES` literal in `agent.ts`;
`none` means the key is not an own property.  Full JavaScript bracket
lookup also consults the prototype chain: see `TONE_TEMPLATES_prop`
below. -/
def TONE_TEMPLATES_get (tone : String) : Option ToneTemplate :=
  match tone with
  | "friendly" => some TONE_TEMPLATES_friendly
  | "formal" => some
      { greeting := "Thank you for your inquiry."
        connector := "Regarding your question"
        enthusiasm := "excellent"
        closing := "Please let me know if you need further assistance." }
  | "creative" => some
      { greeting := "What an interesting question!"
        connector := "Let me paint you a picture"
        enthusiasm := "brilliant"
        closing := "That's my creative take on it! ✨" }
  | "professional" => some
      { greeting := "Thank you for reaching out."
        connector := "In response to your inquiry"
        enthusiasm := "outstanding"
        closing := "I'm here to assist with any follow-up questions." }
  | "casual" => some
      { greeting := "Hey!"
        connector := "So about"
        enthusiasm := "cool"
        closing := "Let me know if you need anything else!" }
  | _ => none

/-- `TONE_TEMPLATES[options.tone] || TONE_TEMPLATES.friendly` for keys
that are not `Object.prototype` member names: every template object is
truthy, so `||` falls back exactly on an absent key.  On a prototype
member name the real lookup instead keeps the inherited truthy value
(see `toneAfterDefault` and lemma `toneAfterDefault_own`); the total
engine below is faithful off those names. -/
def toneTemplateFor (tone : String) : ToneTemplate :=
  (TONE_TEMPLATES_get tone).getD TONE_TEMPLATES_friendly

/-- `LENGTH_MULTIPLIERS` from `agent.ts`, scaled by 10 so the decimal
constants 0.5 / 1.0 / 1.8 / 2.5 live in ℕ.  Every `Math.floor`
expression the engine derives from a multiplier is computed below as an
exact natural-number division by 10; on the four table values (and the
fallback 1.0) these divisions agree with the IEEE-double floors computed
by the JavaScript source.  `none` means the key is not an own property;
see `LENGTH_MULTIPLIERS_prop` for the full prototype-chain lookup. -/
def LENGTH_MULTIPLIERS_get (responseLength : String) : Option Nat :=
  match responseLength with
  | "short" => some 5
  | "medium" => some 10
  | "long" => some 18
  | "detailed" => some 25
  | _ => none

/-- `LENGTH_MULTIPLIERS[options.responseLength] || 1.0` for keys that
are not `Object.prototype` member names: every table value is nonzero
hence truthy, so `||` falls back exactly on an absent key.  The result
is the multiplier scaled by 10.  On a prototype member name the real
lookup keeps the inherited function instead (see `lengthAfterDefault`
and lemma `lengthAfterDefault_own`). -/
def lengthMultiplierFor (responseLength : String) : Nat :=
  (LENGTH_MULTIPLIERS_get responseLength).getD 10

/-- The `'gpt-3.5-turbo'` entry of `MODEL_CHARACTERISTICS`. -/
def MODEL_CHARACTERISTICS_gpt35turbo : ModelCharacteristics :=
  { complexity := "simple", examples := 1 }

/-- The own properties of the `MODEL_CHARACTERISTICS` literal in
`agent.ts`; see `MODEL_CHARACTERISTICS_prop` for the full
prototype-chain lookup. -/
def MODEL_CHARACTERISTICS_get (model : String) : Option ModelCharacteristics :=
  match model with
  | "gpt-3.5-turbo" => some MODEL_CHARACTERISTICS_gpt35turbo
  | "gpt-4" => some { complexity := "detailed", examples := 2 }
  | "claude-3" => some { complexity := "analytical", examples := 1 }
  | "claude-3.5" => some { complexity := "comprehensive", examples := 3 }
  | "claude-3.5-sonnet" => some { complexity := "comprehensive", examples := 3 }
  | "gemini-pro" => some { complexity := "creative", examples := 2 }
  | _ => none

/-- `MODEL_CHARACTERISTICS[options.model] || MODEL_CHARACTERISTICS['gpt-3.5-turbo']`,
under the same non-prototype-name proviso as `toneTemplateFor`
(lemma `modelAfterDefault_own`). -/
def modelCharFor (model : String) : ModelCharacteristics :=
  (MODEL_CHARACTERISTICS_get model).getD MODEL_CHARACTERISTICS_gpt35turbo

/-! ## Prototype-chain lookup

JavaScript bracket lookup on an object literal consults the whole
prototype chain: for a key that is not an own property of the table but
is a property name of `Object.prototype`, the lookup yields the
inherited value (a built-in function, or the prototype object itself
for `__proto__`) — which is truthy, so `|| fallback` keeps it and the
engine's tables do NOT fall back to their defaults on such keys.  The
definitions below make that layer explicit; `jsGet` is the faithful
semantics of `table[key]`, and the `*AfterDefault` functions are the
faithful semantics of `table[key] || defaultEntry`. -/

/-- The property names of `Object.prototype` (ECMA-262, annex B
included).  Every one of them holds a truthy value: a built-in
function, or `Object.prototype` itself for the `__proto__` accessor. -/
def OBJECT_PROTOTYPE_KEYS : List String :=
  ["constructor", "toString", "toLocaleString", "valueOf", "hasOwnProperty",
   "isPrototypeOf", "propertyIsEnumerable", "__proto__", "__defineGetter__",
   "__defineSetter__", "__lookupGetter__", "__lookupSetter__"]

/-- The result of JavaScript bracket lookup on one of the engine's
table literals: an own data property, a truthy value inherited from
`Object.prototype` (never a table entry), or `undefined`. -/
inductive JsProp (α : Type) where
  | own (a : α)
  | inherited
  | undefined
deriving DecidableEq

/-- Faithful `table[key]` on an object literal with own-property map
`ownProps`: own properties shadow the prototype; otherwise the
`Object.prototype` member names yield the inherited truthy value and
everything else yields `undefined`. -/
def jsGet {α : Type} (ownProps : String → Option α) (key : String) : JsProp α :=
  match ownProps key with
  | some a => .own a
  | none => if key ∈ OBJECT_PROTOTYPE_KEYS then .inherited else .undefined

/-- Faithful `TONE_TEMPLATES[tone]`. -/
def TONE_TEMPLATES_prop (tone : String) : JsProp ToneTemplate :=
  jsGet TONE_TEMPLATES_get tone

/-- Faithful `TONE_TEMPLATES[options.tone] || TONE_TEMPLATES.friendly`:
only `undefined` is falsy here, so an inherited prototype value is kept
and the friendly fallback does not happen on prototype member names. -/
def toneAfterDefault (tone : String) : JsProp ToneTemplate :=
  match TONE_TEMPLATES_prop tone with
  | .undefined => .own TONE_TEMPLATES_friendly
  | r => r

/-- Faithful `LENGTH_MULTIPLIERS[responseLength]`. -/
def LENGTH_MULTIPLIERS_prop (responseLength : String) : JsProp Nat :=
  jsGet LENGTH_MULTIPLIERS_get responseLength

/-- Faithful `LENGTH_MULTIPLIERS[options.responseLength] || 1.0` (the
number is in tenths): an inherited prototype value (a function) is
truthy and kept, and every arithmetic use of it downstream is `NaN`. -/
def lengthAfterDefault (responseLength : String) : JsProp Nat :=
  match LENGTH_MULTIPLIERS_prop responseLength with
  | .undefined => .own 10
  | r => r

/-- Faithful `MODEL_CHARACTERISTICS[model]`. -/
def MODEL_CHARACTERISTICS_prop (model : String) : JsProp ModelCharacteristics :=
  jsGet MODEL_CHARACTERISTICS_get model

/-- Faithful `MODEL_CHARACTERISTICS[options.model] || MODEL_CHARACTERISTICS['gpt-3.5-turbo']`. -/
def modelAfterDefault (model : String) : JsProp ModelCharacteristics :=
  match MODEL_CHARACTERISTICS_prop model with
  | .undefined => .own MODEL_CHARACTERISTICS_gpt35turbo
  | r => r

/-! ## Chat data model (`src/types/chat.ts`)

The TypeScript union types for tone / responseLength / model erase at
runtime; the engine indexes its tables with whatever string arrives, so
the model uses `String` for those fields.  `Date` values are modelled by
their epoch-millisecond count. -/

structure ChatOptions where
  tone : String
  responseLength : String
  model : String
deriving DecidableEq

structure Attachment where
  id : String
  name : String
  size : Nat
  type : String
  mimeType : String
  uploadedAt : Nat
deriving DecidableEq

inductive SenderType where
  | user
  | agent
deriving DecidableEq

inductive MessageStatus where
  | sending
  | sent
  | delivered
  | failed
  | read
deriving DecidableEq

structure Message where
  id : String
  sender : SenderType
  text : String
  timestamp : Nat
  attachments : List Attachment
  status : MessageStatus
deriving DecidableEq

/-- The ambient nondeterminism consumed by one `generateAgentReply`
call: the value produced by the `generateMessageId()` collaborator
(`Date.now` + `Math.random` in `format.ts`) and the `new Date()`
timestamp, threaded explicitly. -/
structure GenEnv where
  newId : String
  now : Nat
deriving DecidableEq

/-! ## Template generators -/

/-- JavaScript `String.prototype.includes` on character lists. -/
def listContainsSub (pat : List Char) : List Char → Bool
  | [] => pat.isPrefixOf []
  | c :: rest => pat.isPrefixOf (c :: rest) || listContainsSub pat rest

/-- JavaScript `s.includes(pat)`. -/
def jsIncludes (s pat : String) : Bool :=
  listContainsSub pat.data s.data

/-- The attachment-mention expression of `generateAgentReply`
(`agent.ts` lines 109–111). -/
def attachmentMention (attachments : List Attachment) : String :=
  if attachments.length > 0 then
    "I can see you've attached " ++ toString attachments.length ++ " file"
      ++ (if attachments.length > 1 then "s" else "") ++ " ("
      ++ String.intercalate ", " (attachments.map Attachment.name) ++ "). "
  else ""

/-- `generateSummaryReply` from `agent.ts`.  `lengthMultiplier` is
scaled by 10 (see `LENGTH_MULTIPLIERS_get`); `baseLength` is
`Math.floor(50 * multiplier)`. -/
def generateSummaryReply (userText : String) (tone : ToneTemplate)
    (lengthMultiplier : Nat) (modelChar : ModelCharacteristics)
    (attachmentMention : String) : String :=
  let baseLength := 50 * lengthMultiplier / 10
  let complexity := if modelChar.complexity = "detailed" then "comprehensive" else "concise"
  tone.greeting ++ " " ++ attachmentMention ++
    (tone.connector ++ " \"" ++ userText ++ "\", here's a " ++ complexity ++ " summary:\n\n"
      ++ (if jsIncludes userText.toLower "help" then
            "I'd be happy to help you with that! Based on your question, here are the key points you should know."
          else
            "Let me break this down for you in a clear, organized way.")
      ++ "\n\nThe main concept involves understanding the core principles and applying them effectively. "
      ++ (if baseLength > 100 then
            "There are several important aspects to consider, each building upon the previous one."
          else "")
      ++ "\n\n" ++ tone.closing)

/-- `generateBulletReply` from `agent.ts`; `bulletCount` is
`Math.floor(3 + multiplier * 2)`. -/
def generateBulletReply (userText : String) (tone : ToneTemplate)
    (lengthMultiplier : Nat) (modelChar : ModelCharacteristics)
    (attachmentMention : String) : String :=
  let bulletCount := (30 + lengthMultiplier * 2) / 10
  let maxBullets := min bulletCount (3 + modelChar.examples)
  tone.greeting ++ " " ++ attachmentMention ++
    ("Here are the key points about \"" ++ userText ++ "\":\n\n"
      ++ "• **Primary consideration**: This is the most important aspect to understand\n"
      ++ "• **Secondary factors**: These elements support the main concept\n"
      ++ "• **Implementation details**: How to actually apply this knowledge\n"
      ++ (if maxBullets > 3 then
            "• **Advanced concepts**: Deeper insights for better understanding\n• **Common pitfalls**: Things to avoid when working with this\n• **Best practices**: Recommended approaches for success"
          else "")
      ++ "\n\n" ++ tone.closing)

/-- `generateStepsReply` from `agent.ts`; `stepCount` is
`Math.floor(3 + multiplier)`. -/
def generateStepsReply (userText : String) (tone : ToneTemplate)
    (lengthMultiplier : Nat) (modelChar : ModelCharacteristics)
    (attachmentMention : String) : String :=
  let stepCount := (30 + lengthMultiplier) / 10
  let maxSteps := min stepCount (3 + modelChar.examples)
  tone.greeting ++ " " ++ attachmentMention ++
    ("Let me walk you through \"" ++ userText ++ "\" step by step:\n\n"
      ++ "**Step 1: Initial Setup**\nStart by understanding the basic requirements and context for " ++ userText ++ ".\n\n"
      ++ "**Step 2: Core Implementation** \nApply the main concepts and build the foundation for your " ++ userText ++ " approach.\n\n"
      ++ "**Step 3: Refinement**\nPolish and optimize your " ++ userText ++ " implementation.\n"
      ++ (if maxSteps > 3 then
            "\n**Step 4: Advanced Features**\nAdd sophisticated elements for better " ++ userText ++ " results.\n\n**Step 5: Testing & Validation**\nEnsure your " ++ userText ++ " solution works as expected."
          else "")
      ++ "\n\n" ++ tone.closing)

/-- The `quips` array of `generateShortQuipReply`, lambda-lifted over
its two free variables. -/
def quipsFor (tone : ToneTemplate) (attachmentMention : String) : List String :=
  [ "That's a " ++ tone.enthusiasm ++ " question! " ++ attachmentMention ++
      "The short answer: it depends on your specific needs.",
    "Great question! " ++ attachmentMention ++
      "In a nutshell: focus on the fundamentals first.",
    "Interesting! " ++ attachmentMention ++
      "My take: start simple, then iterate.",
    "Love this! " ++ attachmentMention ++
      "Quick answer: yes, but with some caveats." ]

/-- `Math.min(quips.length, Math.floor(2 + modelChar.examples + lengthMultiplier))`
with the multiplier scaled by 10. -/
def maxQuipsOf (numQuips examples lengthMultiplier : Nat) : Nat :=
  min numQuips ((20 + examples * 10 + lengthMultiplier) / 10)

/-- `generateShortQuipReply` from `agent.ts`: a second hash of the user
text alone selects one canned quip.  `List.getD` with default `""`
models the JavaScript indexing; the index is proved in bounds in the
theorems below, so the default is never consulted. -/
def generateShortQuipReply (userText : String) (tone : ToneTemplate)
    (lengthMultiplier : Nat) (modelChar : ModelCharacteristics)
    (attachmentMention : String) : String :=
  let quips := quipsFor tone attachmentMention
  let hash := hashString userText
  let maxQuips := maxQuipsOf quips.length modelChar.examples lengthMultiplier
  quips.getD (hash % maxQuips) ""

/-- `generateDefinitionExampleReply` from `agent.ts`; `exampleCount` is
`Math.min(examples, Math.floor(examples * multiplier))`. -/
def generateDefinitionExampleReply (userText : String) (tone : ToneTemplate)
    (lengthMultiplier : Nat) (modelChar : ModelCharacteristics)
    (attachmentMention : String) : String :=
  let exampleCount := min modelChar.examples (modelChar.examples * lengthMultiplier / 10)
  tone.greeting ++ " " ++ attachmentMention ++
    ("Let me define this clearly:\n\n"
      ++ "**Definition**: " ++ userText ++ " refers to a systematic approach that combines multiple elements to achieve a desired outcome.\n\n"
      ++ "**Key Characteristics**:\n- Structured methodology\n- Clear objectives\n- Measurable results\n\n"
      ++ "**Examples**:\n"
      ++ (if exampleCount ≥ 1 then "1. **Basic Example**: A simple implementation that demonstrates core concepts\n" else "")
      ++ (if exampleCount ≥ 2 then "2. **Intermediate Example**: A more complex scenario showing advanced features\n" else "")
      ++ (if exampleCount ≥ 3 then "3. **Advanced Example**: A sophisticated use case with multiple components\n" else "")
      ++ "\n\n" ++ tone.closing)

structure QAPair where
  q : String
  a : String

/-- The `qaPairs` array of `generateQAReply`, lambda-lifted over the
user text. -/
def qaPairsFor (userText : String) : List QAPair :=
  [ { q := "What exactly are you asking about?"
      a := "Based on \"" ++ userText ++ "\", you're looking for guidance on a specific topic or problem." },
    { q := "What's the best approach?"
      a := "The optimal solution depends on your specific requirements and constraints." },
    { q := "How do you get started?"
      a := "Begin with the fundamentals, then gradually build complexity as needed." },
    { q := "What should you avoid?"
      a := "Common mistakes include overcomplicating things initially and not testing thoroughly." } ]

/-- `generateQAReply` from `agent.ts`; `qaCount` is
`Math.min(4, Math.floor(2 + examples + multiplier))`. -/
def generateQAReply (userText : String) (tone : ToneTemplate)
    (lengthMultiplier : Nat) (modelChar : ModelCharacteristics)
    (attachmentMention : String) : String :=
  let qaCount := min 4 ((20 + modelChar.examples * 10 + lengthMultiplier) / 10)
  let qaText := String.intercalate "\n\n"
    (((qaPairsFor userText).take qaCount).map
      (fun pair => "**Q: " ++ pair.q ++ "**\nA: " ++ pair.a))
  tone.greeting ++ " " ++ attachmentMention ++
    ("Let me address your question systematically:\n\n" ++ qaText ++ "\n\n" ++ tone.closing)

/-! ## The reply engine -/

/-- The seed string `` `${userText}-${options.tone}-${options.responseLength}-${options.model}` ``. -/
def seedOf (userText : String) (options : ChatOptions) : String :=
  userText ++ "-" ++ options.tone ++ "-" ++ options.responseLength ++ "-" ++ options.model

/-- `REPLY_STYLES[hash % REPLY_STYLES.length]`. -/
def styleOf (hash : Nat) : ReplyStyle :=
  REPLY_STYLES.get ⟨hash % REPLY_STYLES.length, Nat.mod_lt _ (by decide)⟩

/-- The `switch (style)` statement of `generateAgentReply`. -/
def replyTextFor (style : ReplyStyle) (userText : String) (tone : ToneTemplate)
    (lengthMultiplier : Nat) (modelChar : ModelCharacteristics)
    (attachmentMention : String) : String :=
  match style with
  | .summary => generateSummaryReply userText tone lengthMultiplier modelChar attachmentMention
  | .bullets => generateBulletReply userText tone lengthMultiplier modelChar attachmentMention
  | .steps => generateStepsReply userText tone lengthMultiplier modelChar attachmentMention
  | .short_quip => generateShortQuipReply userText tone lengthMultiplier modelChar attachmentMention
  | .definition_example => generateDefinitionExampleReply userText tone lengthMultiplier modelChar attachmentMention
  | .qa => generateQAReply userText tone lengthMultiplier modelChar attachmentMention

/-- The pure text-generation part of `generateAgentReply` (`agent.ts`
lines 96–134): seed hash, style selection, table lookups with
fallbacks, attachment mention, and the selected template. -/
def generateReplyText (userText : String) (options : ChatOptions)
    (attachments : List Attachment) : String :=
  replyTextFor (styleOf (hashString (seedOf userText options))) userText
    (toneTemplateFor options.tone)
    (lengthMultiplierFor options.responseLength)
    (modelCharFor options.model)
    (attachmentMention attachments)

/-- `generateAgentReply` from `agent.ts`.  `env` threads the
nondeterministic id and clock reads of the source explicitly. -/
def generateAgentReply (env : GenEnv) (userText : String) (options : ChatOptions)
    (attachments : List Attachment) : Message :=
  { id := env.newId
    sender := .agent
    text := generateReplyText userText options attachments
    timestamp := env.now
    attachments := []
    status := .delivered }

/-! ## JSON value model (`src/hooks/useLocalStorage.ts`)

Values handled by the store are modelled by a JSON-like tree.  A `date`
node models a JavaScript `Date` object, carried as its
`toISOString()` rendering (which is exactly what `JSON.stringify`
writes for it and what `new Date(string)` restores on the read path).
JSON numbers are modelled by integers; none of the store's
control flow inspects numeric values beyond truthiness. -/

mutual
inductive JValue where
  | null : JValue
  | bool (b : Bool) : JValue
  | num (n : Int) : JValue
  | str (s : String) : JValue
  | date (iso : String) : JValue
  | arr (elems : JArray) : JValue
  | obj (fields : JObject) : JValue
deriving DecidableEq
inductive JArray where
  | nil : JArray
  | cons (hd : JValue) (tl : JArray) : JArray
deriving DecidableEq
inductive JObject where
  | nil : JObject
  | cons (key : String) (val : JValue) (tl : JObject) : JObject
deriving DecidableEq
end

/-- First-occurrence property read `fields[key]` (JavaScript object keys
are unique, so first occurrence is exact on values reachable from the
source). -/
def JObject.getField : JObject → String → Option JValue
  | .nil, _ => none
  | .cons k v tl, key => if k = key then some v else tl.getField key

/-- The object spread `{...fields, key: v}`: an existing key keeps its
position with the new value, an absent key is appended. -/
def JObject.setField : JObject → String → JValue → JObject
  | .nil, key, v => .cons key v .nil
  | .cons k w tl, key, v =>
      if k = key then .cons k v tl else .cons k w (tl.setField key v)

/-- The regular expression
`/^\d{4}-\d{2}-\d{2}T\d{2}:\d{2}:\d{2}.\d{3}Z$/` from
`useLocalStorage.ts`: 24 characters, digits and separators at fixed
positions; the dot before the milliseconds is unescaped in the source
and therefore matches any character. -/
def matchesIsoPattern (s : String) : Bool :=
  match s.data with
  | [y1, y2, y3, y4, d5, m1, m2, d8, dd1, dd2, t, h1, h2, c1, mi1, mi2, c2,
     s1, s2, _anychar, ms1, ms2, ms3, z] =>
      y1.isDigit && y2.isDigit && y3.isDigit && y4.isDigit && d5 == '-' &&
      m1.isDigit && m2.isDigit && d8 == '-' && dd1.isDigit && dd2.isDigit &&
      t == 'T' && h1.isDigit && h2.isDigit && c1 == ':' &&
      mi1.isDigit && mi2.isDigit && c2 == ':' && s1.isDigit && s2.isDigit &&
      ms1.isDigit && ms2.isDigit && ms3.isDigit && z == 'Z'
  | _ => false

/-! `JSON.stringify` maps a `Date` to its ISO string (via
`Date.prototype.toJSON`) and is injectively inverted by `JSON.parse` on
everything else; the wire form of a value is therefore the value with
every `date` node replaced by its string. -/

mutual
def serialize : JValue → JValue
  | .null => .null
  | .bool b => .bool b
  | .num n => .num n
  | .str s => .str s
  | .date iso => .str iso
  | .arr l => .arr (serializeList l)
  | .obj fs => .obj (serializeFields fs)
def serializeList : JArray → JArray
  | .nil => .nil
  | .cons v vs => .cons (serialize v) (serializeList vs)
def serializeFields : JObject → JObject
  | .nil => .nil
  | .cons k v fs => .cons k (serialize v) (serializeFields fs)
end

/-! The reviver callback passed to `JSON.parse` in `useLocalStorage.ts`
(both in the initializer and in the storage-event handler): every
string matching the ISO pattern becomes a `Date`; the callback is
applied to every node of the parsed structure. -/

mutual
def reviveAll : JValue → JValue
  | .null => .null
  | .bool b => .bool b
  | .num n => .num n
  | .str s => if matchesIsoPattern s then .date s else .str s
  | .date iso => .date iso
  | .arr l => .arr (reviveList l)
  | .obj fs => .obj (reviveFields fs)
def reviveList : JArray → JArray
  | .nil => .nil
  | .cons v vs => .cons (reviveAll v) (reviveList vs)
def reviveFields : JObject → JObject
  | .nil => .nil
  | .cons k v fs => .cons k (reviveAll v) (reviveFields fs)
end

/-- `save(k, v)` followed by `load(k)`: `setValue` writes
`JSON.stringify(v)` and the initializer reads it back through
`JSON.parse` with the date reviver.  Since stringify/parse are mutually
inverse on the wire form, the composite is revival after
serialization. -/
def storeRoundTrip (v : JValue) : JValue := reviveAll (serialize v)

/-! A value survives the round trip exactly when no plain string node
matches the ISO pattern (such a string would be spuriously revived to a
date) and every date node carries a pattern-conformant ISO string (true
of every real `Date`, whose `toISOString` output always matches). -/

mutual
def roundTripSafe : JValue → Bool
  | .null => true
  | .bool _ => true
  | .num _ => true
  | .str s => !matchesIsoPattern s
  | .date iso => matchesIsoPattern iso
  | .arr l => roundTripSafeList l
  | .obj fs => roundTripSafeFields fs
def roundTripSafeList : JArray → Bool
  | .nil => true
  | .cons v vs => roundTripSafe v && roundTripSafeList vs
def roundTripSafeFields : JObject → Bool
  | .nil => true
  | .cons _ v fs => roundTripSafe v && roundTripSafeFields fs
end

/-! ## The store: load path, setter, migration -/

/-- The `useState` initializer of `useLocalStorage` (lines 11–36),
with the ambient platform made explicit: `windowDefined` models
`typeof window !== 'undefined'`, `item` the result of
`localStorage.getItem(key)`, and `parse` the platform `JSON.parse`
(`none` models a thrown `SyntaxError`, caught by the hook).  The
reviver is applied to the parse result.  Returns the initial state
together with the `console.warn` messages emitted. -/
def getStoredValue (windowDefined : Bool) (item : Option String)
    (parse : String → Option JValue) (key : String) (initialValue : JValue) :
    JValue × List String :=
  if !windowDefined then (initialValue, [])
  else
    match item with
    | none => (initialValue, [])
    | some s =>
      if s = "" then (initialValue, [])
      else
        match parse s with
        | none => (initialValue, ["Error reading localStorage key \"" ++ key ++ "\":"])
        | some j => (reviveAll j, [])

/-- The argument accepted by the setter: a replacement value or a
function of the previous value (`SetValue<T>` in the source). -/
inductive SetValueArg (α : Type) where
  | val (a : α)
  | fn (f : α → α)

/-- `value instanceof Function ? value(prevValue) : value`. -/
def resolveSetValue {α : Type} : SetValueArg α → α → α
  | .val a, _ => a
  | .fn f, prev => f prev

/-- The per-key state of `useLocalStorage`: the in-memory React state
and the value whose serialization the backend currently holds for the
key (`none` when the key is absent). -/
structure StoreCell (α : Type) where
  memory : α
  persisted : Option α
deriving DecidableEq

/-- `setValue` from `useLocalStorage.ts` (lines 40–56), with the React
state update modelled as synchronous application of the updater (the
store contract is synchronous per spec §5).  `windowDefined` models
`typeof window !== 'undefined'`; `writeThrows` models
`localStorage.setItem` throwing (e.g. quota exceeded).  Inside the
updater the write happens before the new value is returned, so a
throwing write aborts the state update: the exception propagates to the
`catch`, which logs, and the cell keeps its previous contents. -/
def setValue {α : Type} (key : String) (windowDefined writeThrows : Bool)
    (value : SetValueArg α) (cell : StoreCell α) : StoreCell α × List String :=
  let valueToStore := resolveSetValue value cell.memory
  if windowDefined then
    if writeThrows then
      (cell, ["Error setting localStorage key \"" ++ key ++ "\":"])
    else
      ({ memory := valueToStore, persisted := some valueToStore }, [])
  else
    ({ memory := valueToStore, persisted := cell.persisted }, [])

/-- `STORAGE_SCHEMA_VERSION` from `useLocalStorage.ts`. -/
def STORAGE_SCHEMA_VERSION : String := "1.0.0"

/-! `jsDisplay` is the JavaScript string coercion of a value
interpolated into a template literal, used for the
`Unknown schema version: ${...}` message.  Composite values follow
`Array.prototype.toString` / `Object.prototype.toString`; a `Date` is
approximated by its ISO rendering. -/

mutual
def jsDisplay : JValue → String
  | .null => "null"
  | .bool b => cond b "true" "false"
  | .num n => toString n
  | .str s => s
  | .date iso => iso
  | .arr l => jsDisplayItems l
  | .obj _ => "[object Object]"
def jsDisplayItems : JArray → String
  | .nil => ""
  | .cons hd .nil => jsDisplayItem hd
  | .cons hd tl => jsDisplayItem hd ++ "," ++ jsDisplayItems tl
def jsDisplayItem : JValue → String
  | .null => ""
  | .bool b => cond b "true" "false"
  | .num n => toString n
  | .str s => s
  | .date iso => iso
  | .arr l => jsDisplayItems l
  | .obj _ => "[object Object]"
end

/-- The `_schemaVersion` property of a value, when the value is an
object carrying one (`'_schemaVersion' in data` plus the read). -/
def schemaVersionOf : JValue → Option JValue
  | .obj fs => fs.getField "_schemaVersion"
  | _ => none

/-- `migrateStorageData` from `useLocalStorage.ts` (lines 101–134),
returning the migrated value (`none` models `null`) together with the
`console.warn` messages.  The source guard
`!data || typeof data !== 'object' || !('_schemaVersion' in data)`
collapses in this value model to: anything that is not an object with a
`_schemaVersion` field is returned unchanged (the falsy values `null`,
`false`, `0`, `""` are all non-objects here, and arrays and dates are
`typeof 'object'` but have no such property).  The version switch uses
strict equality against the strings `expectedVersion` and `"0.9.0"`;
the `0.9.0` branch logs via `console.log`, not `console.warn`, so it
contributes no warning.  The surrounding `try` has no failing operation
in this model, so the catch branch is unreachable. -/
def migrateStorageData (data : JValue) (expectedVersion : String) :
    Option JValue × List String :=
  match data with
  | .obj fs =>
    match fs.getField "_schemaVersion" with
    | none => (some data, [])
    | some v =>
      if v = .str expectedVersion then (some data, [])
      else if v = .str "0.9.0" then
        (some (.obj (fs.setField "_schemaVersion" (.str expectedVersion))), [])
      else (none, ["Unknown schema version: " ++ jsDisplay v])
  | _ => (some data, [])

/-- `createStorageData` from `useLocalStorage.ts`:
`{...data, _schemaVersion: STORAGE_SCHEMA_VERSION}`. -/
def createStorageData (fields : JObject) : JObject :=
  fields.setField "_schemaVersion" (.str STORAGE_SCHEMA_VERSION)

/-! ## Helper lemmas -/

theorem TONE_TEMPLATES_get_unknown (t : String) (h1 : t ≠ "friendly")
    (h2 : t ≠ "formal") (h3 : t ≠ "creative") (h4 : t ≠ "professional")
    (h5 : t ≠ "casual") : TONE_TEMPLATES_get t = none := by
  unfold TONE_TEMPLATES_get
  split
  · exact absurd rfl h1
  · exact absurd rfl h2
  · exact absurd rfl h3
  · exact absurd rfl h4
  · exact absurd rfl h5
  · rfl

theorem LENGTH_MULTIPLIERS_get_unknown (t : String) (h1 : t ≠ "short")
    (h2 : t ≠ "medium") (h3 : t ≠ "long") (h4 : t ≠ "detailed") :
    LENGTH_MULTIPLIERS_get t = none := by
  unfold LENGTH_MULTIPLIERS_get
  split
  · exact absurd rfl h1
  · exact absurd rfl h2
  · exact absurd rfl h3
  · exact absurd rfl h4
  · rfl

theorem modelCharGet_unknown (t : String) (h1 : t ≠ "gpt-3.5-turbo")
    (h2 : t ≠ "gpt-4") (h3 : t ≠ "claude-3") (h4 : t ≠ "claude-3.5")
    (h5 : t ≠ "claude-3.5-sonnet") (h6 : t ≠ "gemini-pro") :
    MODEL_CHARACTERISTICS_get t = none := by
  unfold MODEL_CHARACTERISTICS_get
  split
  · exact absurd rfl h1
  · exact absurd rfl h2
  · exact absurd rfl h3
  · exact absurd rfl h4
  · exact absurd rfl h5
  · exact absurd rfl h6
  · rfl

theorem two_le_quipBudget (ex mt : Nat) : 2 ≤ (20 + ex * 10 + mt) / 10 := by
  have h : 20 / 10 ≤ (20 + ex * 10 + mt) / 10 :=
    Nat.div_le_div_right (by omega)
  simpa using h

theorem maxQuipsOf_pos (ex mt : Nat) : 0 < maxQuipsOf 4 ex mt := by
  unfold maxQuipsOf
  exact lt_min (by norm_num)
    (lt_of_lt_of_le (by norm_num) (two_le_quipBudget ex mt))

theorem quipIndex_lt_four (u : String) (ex mt : Nat) :
    hashString u % maxQuipsOf 4 ex mt < 4 :=
  lt_of_lt_of_le (Nat.mod_lt _ (maxQuipsOf_pos ex mt)) (min_le_left _ _)

theorem quipsFor_getD_decomp (tone : ToneTemplate) (mention : String)
    (i : Nat) (hi : i < 4) :
    ∃ pre post, (quipsFor tone mention).getD i "" = pre ++ mention ++ post := by
  interval_cases i
  · exact ⟨"That's a " ++ tone.enthusiasm ++ " question! ",
      "The short answer: it depends on your specific needs.", rfl⟩
  · exact ⟨"Great question! ", "In a nutshell: focus on the fundamentals first.", rfl⟩
  · exact ⟨"Interesting! ", "My take: start simple, then iterate.", rfl⟩
  · exact ⟨"Love this! ", "Quick answer: yes, but with some caveats.", rfl⟩

theorem generateShortQuipReply_decomp (u : String) (tone : ToneTemplate)
    (mt : Nat) (mc : ModelCharacteristics) (mention : String) :
    ∃ pre post, generateShortQuipReply u tone mt mc mention = pre ++ mention ++ post :=
  quipsFor_getD_decomp tone mention _ (quipIndex_lt_four u mc.examples mt)

theorem replyTextFor_decomp (st : ReplyStyle) (u : String) (tone : ToneTemplate)
    (mt : Nat) (mc : ModelCharacteristics) (mention : String) :
    ∃ pre post, replyTextFor st u tone mt mc mention = pre ++ mention ++ post := by
  cases st with
  | summary => exact ⟨tone.greeting ++ " ", _, rfl⟩
  | bullets => exact ⟨tone.greeting ++ " ", _, rfl⟩
  | steps => exact ⟨tone.greeting ++ " ", _, rfl⟩
  | short_quip => exact generateShortQuipReply_decomp u tone mt mc mention
  | definition_example => exact ⟨tone.greeting ++ " ", _, rfl⟩
  | qa => exact ⟨tone.greeting ++ " ", _, rfl⟩

theorem toneAfterDefault_own (t : String) (h : t ∉ OBJECT_PROTOTYPE_KEYS) :
    toneAfterDefault t = JsProp.own (toneTemplateFor t) := by
  cases hg : TONE_TEMPLATES_get t <;>
    simp [toneAfterDefault, TONE_TEMPLATES_prop, jsGet, toneTemplateFor, hg, h]

theorem lengthAfterDefault_own (t : String) (h : t ∉ OBJECT_PROTOTYPE_KEYS) :
    lengthAfterDefault t = JsProp.own (lengthMultiplierFor t) := by
  cases hg : LENGTH_MULTIPLIERS_get t <;>
    simp [lengthAfterDefault, LENGTH_MULTIPLIERS_prop, jsGet, lengthMultiplierFor, hg, h]

theorem modelAfterDefault_own (t : String) (h : t ∉ OBJECT_PROTOTYPE_KEYS) :
    modelAfterDefault t = JsProp.own (modelCharFor t) := by
  cases hg : MODEL_CHARACTERISTICS_get t <;>
    simp [modelAfterDefault, MODEL_CHARACTERISTICS_prop, jsGet, modelCharFor, hg, h]

/-! ## Claim theorems: reply engine -/

/-- C1: for a fixed `(userText, tone, responseLength, model)` tuple and
a fixed attachment list, the generated reply text is byte-identical
across invocations — it does not depend on the ambient nondeterminism
(`GenEnv`) that feeds the id and the timestamp. -/
theorem C1_reply_text_deterministic (env1 env2 : GenEnv) (u : String)
    (o : ChatOptions) (atts : List Attachment) :
    (generateAgentReply env1 u o atts).text = (generateAgentReply env2 u o atts).text :=
  rfl

/-- C9: every reply message has `sender = agent`, `status = delivered`,
the freshly generated id, the current timestamp, and an empty
attachment list — the input attachments (empty or not) are never echoed
back. -/
theorem C9_reply_message_shape (env : GenEnv) (u : String) (o : ChatOptions)
    (atts : List Attachment) :
    (generateAgentReply env u o atts).sender = SenderType.agent
    ∧ (generateAgentReply env u o atts).status = MessageStatus.delivered
    ∧ (generateAgentReply env u o atts).id = env.newId
    ∧ (generateAgentReply env u o atts).timestamp = env.now
    ∧ (generateAgentReply env u o atts).attachments = [] :=
  ⟨rfl, rfl, rfl, rfl, rfl⟩

/-- C8 as stated is false: JavaScript bracket lookup consults the
prototype chain, so at the unenumerated option string `"constructor"`
(an `Object.prototype` member name) none of the three tables falls back
to its default — `TONE_TEMPLATES["constructor"] || friendly` keeps the
inherited truthy `Object` constructor instead of the friendly template,
the length multiplier is the inherited function (so the quip budget
`Math.floor(2 + examples + multiplier)` is `NaN`, not a number ≥ 1,
and `quips[NaN]` is `undefined`), and the model characteristics are the
inherited function rather than the `gpt-3.5-turbo` record. -/
theorem C8_counterexample :
    (("constructor" : String) ∉ (["friendly", "formal", "creative", "professional", "casual"] : List String)
      ∧ ("constructor" : String) ∉ (["short", "medium", "long", "detailed"] : List String)
      ∧ ("constructor" : String) ∉ (["gpt-3.5-turbo", "gpt-4", "claude-3", "claude-3.5", "claude-3.5-sonnet", "gemini-pro"] : List String))
    ∧ toneAfterDefault "constructor" = JsProp.inherited
    ∧ toneAfterDefault "constructor" ≠ JsProp.own TONE_TEMPLATES_friendly
    ∧ lengthAfterDefault "constructor" = JsProp.inherited
    ∧ lengthAfterDefault "constructor" ≠ JsProp.own 10
    ∧ modelAfterDefault "constructor" = JsProp.inherited
    ∧ modelAfterDefault "constructor" ≠ JsProp.own MODEL_CHARACTERISTICS_gpt35turbo := by
  decide

/-- C8 amended: the engine degrades gracefully on unenumerated option
strings that are not `Object.prototype` member names (on a prototype
member name the bracket lookup keeps the inherited truthy value and no
fallback happens): an unknown tone resolves to the friendly template,
an unknown response length to multiplier 1.0 (10 tenths), an unknown
model to the `gpt-3.5-turbo` characteristics — stated both for the
faithful prototype-chain lookup (`*AfterDefault`) and for the engine's
total lookup functions, which the lemmas `*AfterDefault_own` prove
agree off the prototype names; the style index is in bounds of
`REPLY_STYLES`, the quip modulus is at least 1, and the quip index is
in bounds of the quip list. -/
theorem C8_graceful_fallbacks (o : ChatOptions) (u : String) (atts : List Attachment)
    (ht : o.tone ∉ (["friendly", "formal", "creative", "professional", "casual"] : List String))
    (hl : o.responseLength ∉ (["short", "medium", "long", "detailed"] : List String))
    (hm : o.model ∉ (["gpt-3.5-turbo", "gpt-4", "claude-3", "claude-3.5", "claude-3.5-sonnet", "gemini-pro"] : List String))
    (htp : o.tone ∉ OBJECT_PROTOTYPE_KEYS)
    (hlp : o.responseLength ∉ OBJECT_PROTOTYPE_KEYS)
    (hmp : o.model ∉ OBJECT_PROTOTYPE_KEYS) :
    toneAfterDefault o.tone = JsProp.own TONE_TEMPLATES_friendly
    ∧ lengthAfterDefault o.responseLength = JsProp.own 10
    ∧ modelAfterDefault o.model = JsProp.own MODEL_CHARACTERISTICS_gpt35turbo
    ∧ toneTemplateFor o.tone = TONE_TEMPLATES_friendly
    ∧ lengthMultiplierFor o.responseLength = 10
    ∧ modelCharFor o.model = MODEL_CHARACTERISTICS_gpt35turbo
    ∧ hashString (seedOf u o) % REPLY_STYLES.length < REPLY_STYLES.length
    ∧ 1 ≤ maxQuipsOf (quipsFor (toneTemplateFor o.tone) (attachmentMention atts)).length
        (modelCharFor o.model).examples (lengthMultiplierFor o.responseLength)
    ∧ hashString u % maxQuipsOf (quipsFor (toneTemplateFor o.tone) (attachmentMention atts)).length
        (modelCharFor o.model).examples (lengthMultiplierFor o.responseLength)
      < (quipsFor (toneTemplateFor o.tone) (attachmentMention atts)).length := by
  obtain ⟨t1, t2, t3, t4, t5⟩ :
      o.tone ≠ "friendly" ∧ o.tone ≠ "formal" ∧ o.tone ≠ "creative"
        ∧ o.tone ≠ "professional" ∧ o.tone ≠ "casual" := by
    simpa [not_or] using ht
  obtain ⟨l1, l2, l3, l4⟩ :
      o.responseLength ≠ "short" ∧ o.responseLength ≠ "medium"
        ∧ o.responseLength ≠ "long" ∧ o.responseLength ≠ "detailed" := by
    simpa [not_or] using hl
  obtain ⟨m1, m2, m3, m4, m5, m6⟩ :
      o.model ≠ "gpt-3.5-turbo" ∧ o.model ≠ "gpt-4" ∧ o.model ≠ "claude-3"
        ∧ o.model ≠ "claude-3.5" ∧ o.model ≠ "claude-3.5-sonnet" ∧ o.model ≠ "gemini-pro" := by
    simpa [not_or] using hm
  have e1 : toneTemplateFor o.tone = TONE_TEMPLATES_friendly := by
    unfold toneTemplateFor
    rw [TONE_TEMPLATES_get_unknown _ t1 t2 t3 t4 t5]
    rfl
  have e2 : lengthMultiplierFor o.responseLength = 10 := by
    unfold lengthMultiplierFor
    rw [LENGTH_MULTIPLIERS_get_unknown _ l1 l2 l3 l4]
    rfl
  have e3 : modelCharFor o.model = MODEL_CHARACTERISTICS_gpt35turbo := by
    unfold modelCharFor
    rw [modelCharGet_unknown _ m1 m2 m3 m4 m5 m6]
    rfl
  refine ⟨?_, ?_, ?_, e1, e2, e3, Nat.mod_lt _ (by decide),
    maxQuipsOf_pos _ _, quipIndex_lt_four u _ _⟩
  · rw [toneAfterDefault_own _ htp, e1]
  · rw [lengthAfterDefault_own _ hlp, e2]
  · rw [modelAfterDefault_own _ hmp, e3]

/-- Witness for C8 amended at the concrete unknown, non-prototype
options `(tone, responseLength, model) = ("robotic", "gigantic", "gpt-99")`. -/
theorem C8_graceful_fallbacks_witness :
    (("robotic" : String) ∉ (["friendly", "formal", "creative", "professional", "casual"] : List String)
      ∧ ("gigantic" : String) ∉ (["short", "medium", "long", "detailed"] : List String)
      ∧ ("gpt-99" : String) ∉ (["gpt-3.5-turbo", "gpt-4", "claude-3", "claude-3.5", "claude-3.5-sonnet", "gemini-pro"] : List String)
      ∧ ("robotic" : String) ∉ OBJECT_PROTOTYPE_KEYS
      ∧ ("gigantic" : String) ∉ OBJECT_PROTOTYPE_KEYS
      ∧ ("gpt-99" : String) ∉ OBJECT_PROTOTYPE_KEYS)
    ∧ (toneAfterDefault "robotic" = JsProp.own TONE_TEMPLATES_friendly
      ∧ lengthAfterDefault "gigantic" = JsProp.own 10
      ∧ modelAfterDefault "gpt-99" = JsProp.own MODEL_CHARACTERISTICS_gpt35turbo
      ∧ toneTemplateFor "robotic" = TONE_TEMPLATES_friendly
      ∧ lengthMultiplierFor "gigantic" = 10
      ∧ modelCharFor "gpt-99" = MODEL_CHARACTERISTICS_gpt35turbo
      ∧ hashString (seedOf "hi" ⟨"robotic", "gigantic", "gpt-99"⟩) % REPLY_STYLES.length < REPLY_STYLES.length
      ∧ 1 ≤ maxQuipsOf (quipsFor (toneTemplateFor "robotic") (attachmentMention [])).length
          (modelCharFor "gpt-99").examples (lengthMultiplierFor "gigantic")
      ∧ hashString "hi" % maxQuipsOf (quipsFor (toneTemplateFor "robotic") (attachmentMention [])).length
          (modelCharFor "gpt-99").examples (lengthMultiplierFor "gigantic")
        < (quipsFor (toneTemplateFor "robotic") (attachmentMention [])).length) :=
  ⟨by decide,
    C8_graceful_fallbacks ⟨"robotic", "gigantic", "gpt-99"⟩ "hi" []
      (by decide) (by decide) (by decide) (by decide) (by decide) (by decide)⟩

set_option maxRecDepth 8192 in
/-- C10 as stated is false: the mention string is not prepended to the
reply text.  At user text `"hello"`, friendly / medium / gpt-4 options
and one attached file, the reply does not begin with the mention (it
begins with the tone greeting; the mention follows it). -/
theorem C10_counterexample :
    ¬ ∃ rest, (generateAgentReply ⟨"id0", 0⟩ "hello" ⟨"friendly", "medium", "gpt-4"⟩
        [⟨"1", "a.txt", 10, "text", "text/plain", 0⟩]).text
      = attachmentMention [⟨"1", "a.txt", 10, "text", "text/plain", 0⟩] ++ rest := by
  rintro ⟨rest, h⟩
  have h1 : (some 'H' : Option Char) = some 'I' :=
    congrArg (fun s => s.data.head?) h
  exact absurd h1 (by decide)

/-- C10 amended: fix the response length and model to strings that are
not `Object.prototype` member names (on such a name the real program's
quip budget degenerates to `NaN` via the inherited lookup value and
`quips[NaN]` is `undefined`, so the quip-style reply carries no
mention); then for a non-empty attachment list the deterministic
mention string — naming the count and the comma-joined attachment
names — appears verbatim inside the generated reply text (after the
tone greeting in five styles, inside the selected quip in the sixth)
rather than being prepended to it, and for an empty attachment list the
mention component is the empty string, so no mention appears.  The
first two conjuncts record that under these hypotheses the multiplier
and model lookups the engine uses agree with the faithful
prototype-chain semantics. -/
theorem C10_mention_in_reply (env : GenEnv) (u : String) (o : ChatOptions)
    (atts : List Attachment) (h : atts ≠ [])
    (hlp : o.responseLength ∉ OBJECT_PROTOTYPE_KEYS)
    (hmp : o.model ∉ OBJECT_PROTOTYPE_KEYS) :
    lengthAfterDefault o.responseLength = JsProp.own (lengthMultiplierFor o.responseLength)
    ∧ modelAfterDefault o.model = JsProp.own (modelCharFor o.model)
    ∧ (∃ pre post, (generateAgentReply env u o atts).text = pre ++ attachmentMention atts ++ post)
    ∧ attachmentMention atts
        = "I can see you've attached " ++ toString atts.length ++ " file"
          ++ (if atts.length > 1 then "s" else "") ++ " ("
          ++ String.intercalate ", " (atts.map Attachment.name) ++ "). "
    ∧ attachmentMention [] = "" := by
  have hl : atts.length > 0 := List.length_pos.mpr h
  refine ⟨lengthAfterDefault_own _ hlp, modelAfterDefault_own _ hmp, ?_, ?_, rfl⟩
  · exact replyTextFor_decomp _ u (toneTemplateFor o.tone)
      (lengthMultiplierFor o.responseLength) (modelCharFor o.model)
      (attachmentMention atts)
  · simp [attachmentMention, hl]

/-- Witness for C10 amended at one attached file named `a.txt` with the
non-prototype options `(friendly, medium, gpt-4)`. -/
theorem C10_mention_in_reply_witness :
    (([(⟨"1", "a.txt", 10, "text", "text/plain", 0⟩ : Attachment)] ≠ ([] : List Attachment))
      ∧ ("medium" : String) ∉ OBJECT_PROTOTYPE_KEYS
      ∧ ("gpt-4" : String) ∉ OBJECT_PROTOTYPE_KEYS)
    ∧ (lengthAfterDefault "medium" = JsProp.own (lengthMultiplierFor "medium")
      ∧ modelAfterDefault "gpt-4" = JsProp.own (modelCharFor "gpt-4")
      ∧ (∃ pre post,
          (generateAgentReply ⟨"id0", 0⟩ "hello" ⟨"friendly", "medium", "gpt-4"⟩
              [⟨"1", "a.txt", 10, "text", "text/plain", 0⟩]).text
            = pre ++ attachmentMention [⟨"1", "a.txt", 10, "text", "text/plain", 0⟩] ++ post)
      ∧ attachmentMention [⟨"1", "a.txt", 10, "text", "text/plain", 0⟩]
          = "I can see you've attached " ++ toString ([(⟨"1", "a.txt", 10, "text", "text/plain", 0⟩ : Attachment)]).length ++ " file"
            ++ (if ([(⟨"1", "a.txt", 10, "text", "text/plain", 0⟩ : Attachment)]).length > 1 then "s" else "") ++ " ("
            ++ String.intercalate ", " (([(⟨"1", "a.txt", 10, "text", "text/plain", 0⟩ : Attachment)]).map Attachment.name) ++ "). "
      ∧ attachmentMention [] = "") :=
  ⟨by decide,
    C10_mention_in_reply ⟨"id0", 0⟩ "hello" ⟨"friendly", "medium", "gpt-4"⟩
      [⟨"1", "a.txt", 10, "text", "text/plain", 0⟩] (by decide) (by decide) (by decide)⟩

/-! ## Round-trip lemmas -/

mutual
theorem reviveAll_serialize_eq (v : JValue) (h : roundTripSafe v = true) :
    reviveAll (serialize v) = v := by
  cases v with
  | null => rfl
  | bool b => rfl
  | num n => rfl
  | str s =>
      have hs : matchesIsoPattern s = false := by simpa [roundTripSafe] using h
      simp [serialize, reviveAll, hs]
  | date iso =>
      have hs : matchesIsoPattern iso = true := by simpa [roundTripSafe] using h
      simp [serialize, reviveAll, hs]
  | arr l =>
      have hl : roundTripSafeList l = true := by simpa [roundTripSafe] using h
      simp [serialize, reviveAll, reviveList_serializeList_eq l hl]
  | obj fs =>
      have hf : roundTripSafeFields fs = true := by simpa [roundTripSafe] using h
      simp [serialize, reviveAll, reviveFields_serializeFields_eq fs hf]
theorem reviveList_serializeList_eq (l : JArray) (h : roundTripSafeList l = true) :
    reviveList (serializeList l) = l := by
  cases l with
  | nil => rfl
  | cons v vs =>
      have h1 : roundTripSafe v = true ∧ roundTripSafeList vs = true := by
        simpa [roundTripSafeList, Bool.and_eq_true] using h
      simp [serializeList, reviveList, reviveAll_serialize_eq v h1.1,
        reviveList_serializeList_eq vs h1.2]
theorem reviveFields_serializeFields_eq (fs : JObject) (h : roundTripSafeFields fs = true) :
    reviveFields (serializeFields fs) = fs := by
  cases fs with
  | nil => rfl
  | cons k v tl =>
      have h1 : roundTripSafe v = true ∧ roundTripSafeFields tl = true := by
        simpa [roundTripSafeFields, Bool.and_eq_true] using h
      simp [serializeFields, reviveFields, reviveAll_serialize_eq v h1.1,
        reviveFields_serializeFields_eq tl h1.2]
end

/-! ## Claim theorems: persistent store -/

/-- C2 as stated is false: when the backend write throws, the error is
caught and logged, but the in-memory value is not updated — the write
happens inside the state updater before the new value is returned, so
the thrown exception aborts the update and the memory keeps its
previous value (here 0, not the attempted 1). -/
theorem C2_counterexample :
    (setValue "chat" true true (SetValueArg.val (1 : Nat)) ⟨0, none⟩).2
      = ["Error setting localStorage key \"chat\":"]
    ∧ (setValue "chat" true true (SetValueArg.val (1 : Nat)) ⟨0, none⟩).1.memory ≠ 1 :=
  ⟨rfl, by decide⟩

/-- C2 amended: when the underlying persistence write throws during the
setter, the error is caught and logged as a warning, but the store cell
is left entirely unchanged — the in-memory value is not updated to the
new value. -/
theorem C2_write_failure_caught {α : Type} (key : String) (value : SetValueArg α)
    (cell : StoreCell α) :
    (setValue key true true value cell).1 = cell
    ∧ (setValue key true true value cell).2
        = ["Error setting localStorage key \"" ++ key ++ "\":"] :=
  ⟨rfl, rfl⟩

/-- C6: a functional update is applied to the latest in-memory value at
the moment of the call, and three sequential `prev => prev + 1` setter
calls starting from stored value 0 yield a final stored value of 3. -/
theorem C6_functional_updates {α : Type} (key : String) (f : α → α) (cell : StoreCell α) :
    (setValue key true false (SetValueArg.fn f) cell).1.memory = f cell.memory
    ∧ ((setValue "counter" true false (SetValueArg.fn (· + 1))
        ((setValue "counter" true false (SetValueArg.fn (· + 1))
          ((setValue "counter" true false (SetValueArg.fn (· + 1))
            (⟨0, some 0⟩ : StoreCell Nat)).1)).1)).1).memory = 3 :=
  ⟨rfl, rfl⟩

/-- C7 as stated is false in its logging clause: with an absent
persisted entry (and likewise with the storage backend unavailable) the
caller default is returned but NO warning is logged — those paths raise
no error, so the emitted warning list is empty; only the
unparsable-text path logs. -/
theorem C7_counterexample :
    (getStoredValue true none (fun _ => none) "chat" JValue.null).1 = JValue.null
    ∧ (getStoredValue true none (fun _ => none) "chat" JValue.null).2 = []
    ∧ (getStoredValue false (some "oops") (fun _ => none) "chat" JValue.null).1 = JValue.null
    ∧ (getStoredValue false (some "oops") (fun _ => none) "chat" JValue.null).2 = [] :=
  ⟨rfl, rfl, rfl, rfl⟩

/-- C7 amended: loading falls back to the caller's default and never
throws in all three failure conditions, and the error is logged as a
warning exactly in the unparsable-text case: with no storage backend
(non-browser context) or an absent entry the default is returned
silently; with unparsable text the default is returned and the error is
logged as a warning. -/
theorem C7_load_fallback (item : Option String) (parse : String → Option JValue)
    (key : String) (initialValue : JValue) (s : String)
    (hs : s ≠ "") (hbad : parse s = none) :
    getStoredValue false item parse key initialValue = (initialValue, [])
    ∧ getStoredValue true none parse key initialValue = (initialValue, [])
    ∧ getStoredValue true (some s) parse key initialValue
        = (initialValue, ["Error reading localStorage key \"" ++ key ++ "\":"]) := by
  refine ⟨rfl, rfl, ?_⟩
  simp [getStoredValue, hs, hbad]

/-- Witness for C7 at key `"chat"`, unparsable stored text
`"bad json"`, and a parse that rejects everything. -/
theorem C7_load_fallback_witness :
    (("bad json" : String) ≠ ""
      ∧ (fun (_ : String) => (none : Option JValue)) "bad json" = none)
    ∧ (getStoredValue false (some "bad json") (fun _ => none) "chat" JValue.null
        = (JValue.null, [])
      ∧ getStoredValue true none (fun _ => none) "chat" JValue.null = (JValue.null, [])
      ∧ getStoredValue true (some "bad json") (fun _ => none) "chat" JValue.null
          = (JValue.null, ["Error reading localStorage key \"chat\":"])) :=
  ⟨⟨by decide, rfl⟩,
    C7_load_fallback (some "bad json") (fun _ => none) "chat" JValue.null "bad json"
      (by decide) rfl⟩

/-- C3: migration is the identity on already-current and pre-versioning
data — any value with no `_schemaVersion` field (including non-object
values) and any value whose `_schemaVersion` equals the expected
version is returned unchanged, with no warning. -/
theorem C3_migrate_identity (data : JValue) (e : String)
    (h : schemaVersionOf data = none ∨ schemaVersionOf data = some (JValue.str e)) :
    migrateStorageData data e = (some data, []) := by
  cases data with
  | obj fs =>
      rcases h with h | h <;> simp only [schemaVersionOf] at h
      · simp [migrateStorageData, h]
      · simp [migrateStorageData, h]
  | null => rfl
  | bool b => rfl
  | num n => rfl
  | str s => rfl
  | date iso => rfl
  | arr l => rfl

/-- Witness for C3 at an object already stamped with the expected
version `"1.0.0"`. -/
theorem C3_migrate_identity_witness :
    (schemaVersionOf (JValue.obj (.cons "_schemaVersion" (.str "1.0.0") (.cons "name" (.str "test") .nil))) = none
      ∨ schemaVersionOf (JValue.obj (.cons "_schemaVersion" (.str "1.0.0") (.cons "name" (.str "test") .nil)))
          = some (JValue.str "1.0.0"))
    ∧ migrateStorageData (JValue.obj (.cons "_schemaVersion" (.str "1.0.0") (.cons "name" (.str "test") .nil))) "1.0.0"
        = (some (JValue.obj (.cons "_schemaVersion" (.str "1.0.0") (.cons "name" (.str "test") .nil))), []) :=
  ⟨by decide, C3_migrate_identity _ "1.0.0" (by decide)⟩

/-- C4: a present but unrecognized `_schemaVersion` (neither the
expected version nor the known `"0.9.0"`) makes migration return an
absent result — not a crash — and log a single warning whose message
starts with `Unknown schema version`. -/
theorem C4_migrate_unknown_version (fs : JObject) (e : String) (v : JValue)
    (hget : fs.getField "_schemaVersion" = some v)
    (hne : v ≠ JValue.str e) (h9 : v ≠ JValue.str "0.9.0") :
    migrateStorageData (JValue.obj fs) e
      = (none, ["Unknown schema version: " ++ jsDisplay v]) := by
  simp [migrateStorageData, hget, hne, h9]

/-- Witness for C4 at version `"99.0.0"` against expected `"1.0.0"`
(the spec's own example). -/
theorem C4_migrate_unknown_version_witness :
    ((JObject.cons "_schemaVersion" (.str "99.0.0") (.cons "name" (.str "test") .nil)).getField "_schemaVersion"
        = some (JValue.str "99.0.0")
      ∧ JValue.str "99.0.0" ≠ JValue.str "1.0.0"
      ∧ JValue.str "99.0.0" ≠ JValue.str "0.9.0")
    ∧ migrateStorageData
        (JValue.obj (JObject.cons "_schemaVersion" (.str "99.0.0") (.cons "name" (.str "test") .nil))) "1.0.0"
        = (none, ["Unknown schema version: " ++ jsDisplay (JValue.str "99.0.0")]) :=
  ⟨by decide,
    C4_migrate_unknown_version _ "1.0.0" _ (by decide) (by decide) (by decide)⟩

/-- C5 as stated is false: a primitive string value that happens to
match the ISO pattern does not round-trip — the date-revival heuristic
spuriously turns it into a date value. -/
theorem C5_counterexample :
    storeRoundTrip (JValue.str "2026-01-01T00:00:00.000Z")
        ≠ JValue.str "2026-01-01T00:00:00.000Z"
    ∧ storeRoundTrip (JValue.str "2026-01-01T00:00:00.000Z")
        = JValue.date "2026-01-01T00:00:00.000Z" := by
  exact ⟨by decide, by decide⟩

/-- C5 amended: saving then loading returns the value saved, with every
date field revived as a date value, for every value none of whose plain
string nodes matches the ISO pattern (and whose date nodes carry
well-formed ISO strings, as every real `Date` does). -/
theorem C5_store_roundTrip (v : JValue) (h : roundTripSafe v = true) :
    storeRoundTrip v = v :=
  reviveAll_serialize_eq v h

/-- Witness for C5 amended at a message-like object with a date field. -/
theorem C5_store_roundTrip_witness :
    roundTripSafe (JValue.obj (.cons "id" (.str "1")
        (.cons "text" (.str "Hello")
          (.cons "timestamp" (.date "2024-01-15T10:00:00.000Z") .nil)))) = true
    ∧ storeRoundTrip (JValue.obj (.cons "id" (.str "1")
        (.cons "text" (.str "Hello")
          (.cons "timestamp" (.date "2024-01-15T10:00:00.000Z") .nil))))
      = JValue.obj (.cons "id" (.str "1")
          (.cons "text" (.str "Hello")
            (.cons "timestamp" (.date "2024-01-15T10:00:00.000Z") .nil))) :=
  ⟨by decide, C5_store_roundTrip _ (by decide)⟩
